import Mathlib

/-!
Verification of the RemoveThatBG Python backend
(`PythonBackend/server.py` and `PythonBackend/install_dependencies.py`).

The service state (model cache, pending-cleanup list, files on disk) is made
explicit and threaded through each operation.  External effects that can fail
(`os.statvfs`, `rembg.new_session`, `PIL.Image.open`, `rembg.remove`) are
supplied by an environment record: a `none`/`some msg` field says whether the
corresponding call succeeds or raises an exception carrying message `msg`.
Python exceptions are modelled with `Except String`; the filesystem is the
list of existing paths.
-/

namespace RemoveThatBG

/-- An opaque `rembg` model session.  Sessions are distinguished by a creation
counter so that distinct `new_session` calls yield distinct handles. -/
structure Session where
  id : Nat
deriving DecidableEq, Repr

/-- Result of `os.statvfs` on the models directory: blocks available to an
unprivileged user and the fragment size, in bytes. -/
structure StatVFS where
  f_bavail : Nat
  f_frsize : Nat
deriving DecidableEq, Repr

/-- Per-request environment: outcomes of the external calls the handlers make.
A `some msg` in an `_err` field means that call raises an exception whose
`str` is `msg`; `statvfs = none` means `os.statvfs` itself raises. -/
structure Env where
  statvfs : Option StatVFS
  new_session_err : Option String
  open_err : Option String
  infer_err : Option String
  infer_out : List Nat
deriving DecidableEq, Repr

/-- Mutable process state of `server.py`: the module-level `model_cache` dict
(as an association list), the module-level `temp_files` list, the set of paths
existing on disk, a log of `new_session` invocations (in order), and counters
producing fresh session handles and fresh temporary-file names. -/
structure ServerState where
  model_cache : List (String × Session)
  temp_files : List String
  disk_files : List String
  loads : List String
  next_session_id : Nat
  next_temp_id : Nat
deriving DecidableEq, Repr

/-- The empty state at interpreter start: both module-level containers empty. -/
def ServerState.init : ServerState :=
  { model_cache := [], temp_files := [], disk_files := [],
    loads := [], next_session_id := 0, next_temp_id := 0 }

/-- `os.unlink`: removes a path from the filesystem (paths are unique on a real
filesystem, so every occurrence goes). -/
def fs_unlink (f : String) (disk : List String) : List String :=
  disk.filter (fun g => g != f)

/-- `tempfile.NamedTemporaryFile(delete=False, suffix='.png')` name for the
`n`-th temporary file of the process; the library guarantees freshness. -/
def temp_name (n : Nat) : String :=
  "/tmp/rtbg_" ++ toString n ++ ".png"

/-- `check_disk_space(path, required_mb=500)` from `server.py`: with a
`statvfs` result it compares `(f_bavail * f_frsize) / (1024*1024) >=
required_mb`, which over exact arithmetic is the cross-multiplied integer
inequality below; if `os.statvfs` raises, the `except` branch returns `True`
("Assume OK if check fails"). -/
def check_disk_space (stat : Option StatVFS) (required_mb : Nat) : Bool :=
  match stat with
  | none => true
  | some s => decide (required_mb * 1024 * 1024 ≤ s.f_bavail * s.f_frsize)

/-- `get_session(model_name)` from `server.py`.  It always resolves the models
directory and runs `check_disk_space` first, raising
`RuntimeError("Insufficient disk space for model storage")` when that returns
`False`; only then does it consult `model_cache`, calling `new_session` (which
may itself raise, per `ns_err`) solely on a miss and caching the result.  The
returned state records any mutation of the cache and of the load log; all
error branches leave the state as it was. -/
def get_session (stat : Option StatVFS) (ns_err : Option String)
    (model_name : String) (st : ServerState) :
    Except String Session × ServerState :=
  if check_disk_space stat 500 = false then
    (.error "Insufficient disk space for model storage", st)
  else
    match st.model_cache.lookup model_name with
    | some s => (.ok s, st)
    | none =>
      match ns_err with
      | some msg => (.error msg, st)
      | none =>
        let s : Session := ⟨st.next_session_id⟩
        (.ok s,
          { st with
            model_cache := st.model_cache ++ [(model_name, s)],
            loads := st.loads ++ [model_name],
            next_session_id := st.next_session_id + 1 })

/-- HTTP response body: PNG bytes streamed by `send_file`, the JSON object
`jsonify` builds from a single `error` key, or the success object of
`/preload-model` (its `downloaded`/`path` fields concern the external weights
cache and are abstracted to the model name). -/
inductive Body where
  | png (bytes : List Nat)
  | jsonError (msg : String)
  | preloadOk (model : String)
deriving DecidableEq, Repr

/-- An incoming request as the handlers read it: the optional multipart file
field `image` (as raw bytes) and the optional form field `model`. -/
structure HttpRequest where
  files_image : Option (List Nat)
  form_model : Option String
deriving DecidableEq, Repr

/-- The body of `remove_background`'s `try` block after the temporary file has
been created and recorded: `Image.open` (may raise, `open_err`), `get_session`
(may raise), `remove` plus the PNG re-encode (may raise, `infer_err`;
otherwise produces the library's output bytes `infer_out`).  The state is
threaded so that cache mutation survives a later failure. -/
def rb_process (env : Env) (model_name : String) (st : ServerState) :
    Except String (List Nat) × ServerState :=
  match env.open_err with
  | some msg => (.error msg, st)
  | none =>
    match get_session env.statvfs env.new_session_err model_name st with
    | (.error msg, st') => (.error msg, st')
    | (.ok _, st') =>
      match env.infer_err with
      | some msg => (.error msg, st')
      | none => (.ok env.infer_out, st')

/-- The `finally` block of `remove_background` (lines 170-178): if the
temporary file still exists it is unlinked and, when present, its path is
removed (first occurrence, `list.remove`) from `temp_files`. -/
def finally_cleanup (name : String) (st : ServerState) : ServerState :=
  if name ∈ st.disk_files then
    { st with
      disk_files := fs_unlink name st.disk_files,
      temp_files :=
        if name ∈ st.temp_files then st.temp_files.erase name
        else st.temp_files }
  else st

/-- `remove_background` (`POST /remove-background`).  Missing `image` field:
immediate `400` with `jsonify({"error": "No image provided"})`, nothing else
happens.  Otherwise: create a fresh temporary file on disk, append its path to
`temp_files`, run the processing body, and in `finally` clean the file up.
Any exception from the body is caught by the `except` clause and becomes
`500` with `jsonify({"error": str(e)})`. -/
def remove_background (env : Env) (req : HttpRequest) (st : ServerState) :
    (Nat × Body) × ServerState :=
  match req.files_image with
  | none => ((400, .jsonError "No image provided"), st)
  | some _bytes =>
    let model_name := req.form_model.getD "u2netp"
    let name := temp_name st.next_temp_id
    let st1 :=
      { st with
        next_temp_id := st.next_temp_id + 1,
        disk_files := st.disk_files ++ [name],
        temp_files := st.temp_files ++ [name] }
    match rb_process env model_name st1 with
    | (.ok out, st2) => ((200, .png out), finally_cleanup name st2)
    | (.error msg, st2) => ((500, .jsonError msg), finally_cleanup name st2)

/-- `preload_model` (`POST /preload-model`): resolves the model name (default
`"u2netp"`), forces `get_session`, and reports success with 200 or converts
any exception to `500` with `jsonify({"error": str(e)})`. -/
def preload_model (env : Env) (req : HttpRequest) (st : ServerState) :
    (Nat × Body) × ServerState :=
  let model_name := req.form_model.getD "u2netp"
  match get_session env.statvfs env.new_session_err model_name st with
  | (.ok _, st') => ((200, .preloadOk model_name), st')
  | (.error msg, st') => ((500, .jsonError msg), st')

/-- `cleanup_resources` from `server.py`: `model_cache.clear()`, a
`gc.collect()` pass (no observable state here), best-effort `os.unlink` of
every path in `temp_files` that still exists (failures only logged), then
`temp_files.clear()`. -/
def cleanup_resources (st : ServerState) : ServerState :=
  { st with
    model_cache := [],
    disk_files := st.temp_files.foldl (fun d f => fs_unlink f d) st.disk_files,
    temp_files := [] }

/-- `handle_sigterm`, registered for `SIGTERM` and `SIGINT`: runs
`cleanup_resources()` then `sys.exit(0)`.  Returns the final state together
with the process exit status. -/
def handle_sigterm (st : ServerState) : ServerState × Nat :=
  (cleanup_resources st, 0)

/-- The loop of `find_available_port`: try `fuel` successive ports starting at
`port`, returning the first one that binds (`bindable` is the snapshot of
which ports a loopback TCP socket can bind at the instant of the probe; a
failed bind raises `OSError` and the loop continues). -/
def find_from (bindable : Nat → Bool) (port : Nat) : Nat → Option Nat
  | 0 => none
  | fuel + 1 =>
    if bindable port then some port else find_from bindable (port + 1) fuel

/-- `find_available_port(start_port=55000, max_attempts=10)` from `server.py`:
probes `start_port, start_port+1, ...` for `max_attempts` ports, returns the
first that binds, and raises
`RuntimeError(f"No available ports found in range ...")` when none does. -/
def find_available_port (bindable : Nat → Bool)
    (start_port max_attempts : Nat) : Except String Nat :=
  match find_from bindable start_port max_attempts with
  | some p => .ok p
  | none =>
    .error ("No available ports found in range " ++ toString start_port
      ++ "-" ++ toString (start_port + max_attempts))

/-- Prefix of `s` before the first occurrence of `sep`, or all of `s` when
`sep` does not occur: Python's `s.split(sep)[0]` for a non-empty `sep`. -/
def split_first (sep : List Char) : List Char → List Char
  | [] => []
  | c :: rest =>
    if sep.isPrefixOf (c :: rest) then []
    else c :: split_first sep rest

/-- `s.split(sep)[0]` on strings. -/
def split_head (sep s : String) : String :=
  ⟨split_first sep.data s.data⟩

/-- Python's `.strip()`: drop whitespace from both ends. -/
def strip_chars (l : List Char) : List Char :=
  ((l.dropWhile Char.isWhitespace).reverse.dropWhile Char.isWhitespace).reverse

/-- Python's `.strip().lower()` on a string. -/
def strip_lower (s : String) : String :=
  ⟨(strip_chars s.data).map Char.toLower⟩

/-- The package-name extraction of `check_dependencies`
(`install_dependencies.py` line 69):
`req.split('==')[0].split('>=')[0].split('<=')[0].strip().lower()` —
sequential splits, each taking the part before the first occurrence of its
separator in the previous result. -/
def package_name (req : String) : String :=
  strip_lower (split_head "<=" (split_head ">=" (split_head "==" req)))

/-- `check_dependencies` from `install_dependencies.py`, applied to an already
parsed requirements list and an installed-package mapping (name → version, as
`pip list` produces): a requirement is collected into `missing` when its
extracted package name is not a key of the mapping; the second component is
`len(requirements) - len(missing)`. -/
def check_dependencies (requirements : List String)
    (installed : List (String × String)) : List String × Nat :=
  let missing :=
    requirements.filter (fun req => (installed.lookup (package_name req)).isNone)
  (missing, requirements.length - missing.length)

/-- Modelled from the spec of claim C9 only, for comparison with
`package_name`: "the text before the first `==`, `>=` or `<=`" — a single
left-to-right scan stopping at the first occurrence of any of the three
separators, then stripped and lowercased. -/
def spec_split_first : List Char → List Char
  | [] => []
  | c :: rest =>
    if ("==".data.isPrefixOf (c :: rest) || ">=".data.isPrefixOf (c :: rest)
        || "<=".data.isPrefixOf (c :: rest)) then []
    else c :: spec_split_first rest

/-- The claim-C9 wording of the package-name extraction, to be compared with
the source's `package_name`. -/
def spec_package_name (req : String) : String :=
  strip_lower ⟨spec_split_first req.data⟩

/-- A `statvfs` result with ample free space (about 954 MB). -/
def bigStat : StatVFS := ⟨10 ^ 9, 1⟩

/-- A `statvfs` result with no free space at all. -/
def lowStat : StatVFS := ⟨0, 1⟩

/-- The state after one successful `get_session "u2netp"` from the initial
state: the session is cached and logged as loaded. -/
def cachedState : ServerState :=
  { model_cache := [("u2netp", ⟨0⟩)], temp_files := [], disk_files := [],
    loads := ["u2netp"], next_session_id := 1, next_temp_id := 0 }

/-- An environment in which every external call succeeds. -/
def envNoErr : Env :=
  { statvfs := some bigStat, new_session_err := none, open_err := none,
    infer_err := none, infer_out := [1, 2, 3] }

/-- An environment whose only anomaly is a full disk. -/
def envNoDisk : Env :=
  { statvfs := some lowStat, new_session_err := none, open_err := none,
    infer_err := none, infer_out := [] }

/-- A state with a cached model and two tracked temporary files still on
disk, as seen by the signal handler. -/
def sigtermTestState : ServerState :=
  { model_cache := [("u2netp", ⟨0⟩)],
    temp_files := ["/tmp/rtbg_0.png", "/tmp/rtbg_1.png"],
    disk_files := ["/tmp/rtbg_0.png", "/tmp/other.txt", "/tmp/rtbg_1.png"],
    loads := ["u2netp"], next_session_id := 1, next_temp_id := 2 }

/-! ## General lemmas about the embedded operations -/

/-- `get_session` never touches the filesystem model: neither the tracked
temporary files nor the disk contents change, whatever the outcome. -/
theorem get_session_preserves_files (stat : Option StatVFS) (ns : Option String)
    (m : String) (st : ServerState) :
    (get_session stat ns m st).2.disk_files = st.disk_files
    ∧ (get_session stat ns m st).2.temp_files = st.temp_files := by
  unfold get_session
  cases hc : check_disk_space stat 500
  · simp
  · cases hl : st.model_cache.lookup m
    · cases ns <;> simp
    · simp

/-- The processing body of `remove_background` never touches the filesystem
model either. -/
theorem rb_process_preserves_files (env : Env) (m : String) (st : ServerState) :
    (rb_process env m st).2.disk_files = st.disk_files
    ∧ (rb_process env m st).2.temp_files = st.temp_files := by
  unfold rb_process
  cases env.open_err with
  | some msg => simp
  | none =>
    rcases hg : get_session env.statvfs env.new_session_err m st with ⟨res, st2⟩
    have hp := get_session_preserves_files env.statvfs env.new_session_err m st
    rw [hg] at hp
    simp only [] at hp
    cases res <;> cases hi : env.infer_err <;> simp <;> exact hp

/-- A path is gone from the disk model right after it is unlinked. -/
theorem not_mem_fs_unlink_self (f : String) (d : List String) :
    f ∉ fs_unlink f d := by
  intro h
  have := List.mem_filter.mp h
  simp at this

/-- Unlinking files never makes an absent path reappear. -/
theorem foldl_unlink_mono (fs : List String) :
    ∀ (d : List String) (f : String), f ∉ d →
      f ∉ fs.foldl (fun acc g => fs_unlink g acc) d := by
  induction fs with
  | nil => intro d f h; exact h
  | cons a fs ih =>
    intro d f h
    exact ih (fs_unlink a d) f (fun hm => h (List.mem_of_mem_filter hm))

/-- After unlinking every file of `fs`, no member of `fs` is on disk. -/
theorem foldl_unlink_not_mem (fs : List String) :
    ∀ (d : List String) (f : String), f ∈ fs →
      f ∉ fs.foldl (fun acc g => fs_unlink g acc) d := by
  induction fs with
  | nil => intro d f h; exact absurd h (List.not_mem_nil f)
  | cons a fs ih =>
    intro d f hf
    rcases List.mem_cons.mp hf with rfl | hf2
    · exact foldl_unlink_mono fs (fs_unlink f d) f (not_mem_fs_unlink_self f d)
    · exact ih (fs_unlink a d) f hf2

/-- After the `finally` block, the request's temporary file is neither on
disk nor tracked, provided it was still on disk and was the one fresh entry
appended to `temp_files`. -/
theorem finally_cleanup_not_mem (name : String) (st : ServerState)
    (t : List String) (hmem : name ∈ st.disk_files)
    (ht : st.temp_files = t ++ [name]) (hfresh : name ∉ t) :
    name ∉ (finally_cleanup name st).disk_files
    ∧ name ∉ (finally_cleanup name st).temp_files := by
  have hmt : name ∈ st.temp_files := by
    rw [ht]; exact List.mem_append_right t (List.mem_singleton_self name)
  unfold finally_cleanup
  rw [if_pos hmem]
  constructor
  · exact not_mem_fs_unlink_self name st.disk_files
  · show name ∉ (if name ∈ st.temp_files then st.temp_files.erase name
      else st.temp_files)
    rw [if_pos hmt, ht, List.erase_append_right [name] hfresh]
    simp [hfresh]

/-- If `find_from` returns a port, that port is in the probed window, it was
bindable, and every earlier probed port was not. -/
theorem find_from_ok (b : Nat → Bool) :
    ∀ (n p q : Nat), find_from b p n = some q →
      p ≤ q ∧ q < p + n ∧ b q = true
        ∧ ∀ r, p ≤ r → r < q → b r = false := by
  intro n
  induction n with
  | zero => intro p q h; simp [find_from] at h
  | succ n ih =>
    intro p q h
    by_cases hb : b p = true
    · simp [find_from, hb] at h
      subst h
      exact ⟨Nat.le_refl p, by omega, hb,
        fun r hr1 hr2 => absurd hr1 (by omega)⟩
    · have hb2 : b p = false := by simpa using hb
      simp [find_from, hb2] at h
      obtain ⟨h1, h2, h3, h4⟩ := ih (p + 1) q h
      refine ⟨by omega, by omega, h3, ?_⟩
      intro r hr1 hr2
      rcases Nat.eq_or_lt_of_le hr1 with rfl | hlt
      · exact hb2
      · exact h4 r (by omega) hr2

/-- If no port of the probed window is bindable, `find_from` finds none. -/
theorem find_from_none (b : Nat → Bool) :
    ∀ (n p : Nat), (∀ q, p ≤ q → q < p + n → b q = false) →
      find_from b p n = none := by
  intro n
  induction n with
  | zero => intro p _; rfl
  | succ n ih =>
    intro p h
    have hb : b p = false := h p (Nat.le_refl p) (by omega)
    simp [find_from, hb]
    exact ih (p + 1) (fun q h1 h2 => h q (by omega) (by omega))

/-! ## Claim theorems -/

/-- C6: `check_dependencies` on the requirements list `["a==1.0", "b"]` with
installed packages `a ↦ 1.0` reports exactly `b` missing and an installed
count of `1`. -/
theorem check_dependencies_scenario :
    check_dependencies ["a==1.0", "b"] [("a", "1.0")] = (["b"], 1) := by decide

/-- C9 (counterexample): the claim's characterisation — a requirement is
missing iff the text before the FIRST of `==`/`>=`/`<=` is absent from the
installed mapping — fails on the requirement `"x>==y"` with `x` installed:
the code's sequential splits yield the name `"x>"` (which is not installed,
so the requirement is reported missing), while the claim's first-separator
reading yields `"x"` (which is installed, so the claim predicts satisfied). -/
theorem check_dependencies_first_separator_cex :
    ¬ (("x>==y" ∈ (check_dependencies ["x>==y"] [("x", "1.0")]).1) ↔
        (List.lookup (spec_package_name "x>==y") [("x", "1.0")]).isNone) := by
  decide

/-- C9 (amended): a requirement is reported missing iff its package name as
the code computes it — `req.split('==')[0].split('>=')[0].split('<=')[0]`,
sequentially, then stripped and lowercased — is absent from the installed
mapping; version constraints are otherwise ignored, so a pinned requirement
like `"a==2.0"` counts as satisfied whenever any version of `a` is
installed. -/
theorem check_dependencies_name_only (requirements : List String)
    (installed : List (String × String)) (req : String) :
    (req ∈ (check_dependencies requirements installed).1 ↔
      req ∈ requirements ∧ (installed.lookup (package_name req)).isNone)
    ∧ (check_dependencies ["a==2.0"] [("a", "1.0")]).1 = [] := by
  constructor
  · simp [check_dependencies, List.mem_filter]
  · decide

/-- Witness for `check_dependencies_name_only` at the C6 scenario inputs. -/
theorem check_dependencies_name_only_witness :
    ("b" ∈ (check_dependencies ["a==1.0", "b"] [("a", "1.0")]).1 ↔
      "b" ∈ ["a==1.0", "b"]
        ∧ (List.lookup (package_name "b") [("a", "1.0")]).isNone)
    ∧ (check_dependencies ["a==2.0"] [("a", "1.0")]).1 = [] :=
  check_dependencies_name_only ["a==1.0", "b"] [("a", "1.0")] "b"

/-- C10: `check_disk_space` fails open — when `os.statvfs` raises, it returns
`True`, so a failing disk-space probe alone never makes `get_session` raise
`InsufficientStorage` or block the load: with `new_session` succeeding,
`get_session` succeeds. -/
theorem check_disk_space_fails_open (required_mb : Nat) (ns : Option String)
    (name : String) (st : ServerState) :
    check_disk_space none required_mb = true
    ∧ (ns = none → ∃ s, (get_session none ns name st).1 = .ok s) := by
  refine ⟨rfl, fun h => ?_⟩
  subst h
  unfold get_session
  cases hl : st.model_cache.lookup name <;> simp [check_disk_space, hl]

/-- Witness for `check_disk_space_fails_open` on the initial state. -/
theorem check_disk_space_fails_open_witness :
    check_disk_space none 500 = true
    ∧ ((none : Option String) = none →
        ∃ s, (get_session none none "u2netp" ServerState.init).1 = .ok s) :=
  check_disk_space_fails_open 500 none "u2netp" ServerState.init

/-- C1 (counterexample): with `"u2netp"` already cached, a call to
`get_session` on a full disk still fails with the InsufficientStorage
error — the disk-space check is not skipped on a cache hit. -/
theorem get_session_cached_hit_disk_check_cex :
    get_session (some lowStat) none "u2netp" cachedState
      = (.error "Insufficient disk space for model storage", cachedState) := by
  rfl

/-- C1 (amended): `get_session` runs the disk-space check on EVERY call,
before the cache lookup: whenever the check fails, even a call whose model
name is cached fails with `InsufficientStorage`; only when the check passes
does a cached name yield the cached session (without reloading). -/
theorem get_session_disk_check_every_call (stat : Option StatVFS)
    (ns : Option String) (name : String) (st : ServerState) (s : Session)
    (hcache : st.model_cache.lookup name = some s) :
    (check_disk_space stat 500 = false →
      get_session stat ns name st
        = (.error "Insufficient disk space for model storage", st))
    ∧ (check_disk_space stat 500 = true →
      get_session stat ns name st = (.ok s, st)) := by
  constructor <;> intro h <;> simp [get_session, h, hcache]

/-- Witness for `get_session_disk_check_every_call`: a cached hit on a full
disk raises. -/
theorem get_session_disk_check_every_call_witness :
    get_session (some lowStat) none "u2netp" cachedState
      = (.error "Insufficient disk space for model storage", cachedState) :=
  (get_session_disk_check_every_call (some lowStat) none "u2netp" cachedState
    ⟨0⟩ (by rfl)).1 (by rfl)

/-- C4 (counterexample): a first call from the initial state caches the
`"u2netp"` session, but a subsequent call with the same name on a full disk
raises InsufficientStorage instead of returning the cached session — so not
EVERY subsequent call returns it. -/
theorem get_session_second_call_insufficient_cex :
    get_session (some bigStat) none "u2netp" ServerState.init
      = (.ok ⟨0⟩, cachedState)
    ∧ get_session (some lowStat) none "u2netp" cachedState
      = (.error "Insufficient disk space for model storage", cachedState) := by
  constructor <;> rfl

/-- C4 (amended): once a session is cached under a name, no later call with
that name invokes `new_session` again (the state, including the load log, is
unchanged), and each such call either returns the cached session (disk check
passing) or fails with `InsufficientStorage` (disk check failing) — the model
is loaded at most once per name. -/
theorem get_session_cached_no_reload (stat : Option StatVFS)
    (ns : Option String) (name : String) (st : ServerState) (s : Session)
    (hcache : st.model_cache.lookup name = some s) :
    (get_session stat ns name st).2 = st
    ∧ ((get_session stat ns name st).1 = .ok s
        ∨ (get_session stat ns name st).1
            = .error "Insufficient disk space for model storage") := by
  unfold get_session
  cases hd : check_disk_space stat 500 <;> simp [hd, hcache]

/-- Witness for `get_session_cached_no_reload` on a healthy disk. -/
theorem get_session_cached_no_reload_witness :
    (get_session (some bigStat) none "u2netp" cachedState).2 = cachedState
    ∧ ((get_session (some bigStat) none "u2netp" cachedState).1 = .ok ⟨0⟩
        ∨ (get_session (some bigStat) none "u2netp" cachedState).1
            = .error "Insufficient disk space for model storage") :=
  get_session_cached_no_reload (some bigStat) none "u2netp" cachedState ⟨0⟩
    (by rfl)

/-- C5: a POST to `/remove-background` without the `image` file field returns
status 400 with exactly `jsonify({"error": "No image provided"})`, and the
whole server state is untouched: no temporary file is created, nothing is
appended to `temp_files`, no model load and no inference happens. -/
theorem remove_background_no_image_400 (env : Env) (req : HttpRequest)
    (st : ServerState) (h : req.files_image = none) :
    remove_background env req st
      = ((400, .jsonError "No image provided"), st) := by
  simp [remove_background, h]

/-- Witness for `remove_background_no_image_400` on a concrete request. -/
theorem remove_background_no_image_400_witness :
    remove_background envNoErr ⟨none, none⟩ ServerState.init
      = ((400, .jsonError "No image provided"), ServerState.init) :=
  remove_background_no_image_400 envNoErr ⟨none, none⟩ ServerState.init rfl

/-- C2: for every `/remove-background` request that carries an image — so a
temporary file is created — the temporary file is off the disk and its path
is out of the pending-cleanup list in the state in which the response is
produced, on every exit path: success, handled processing error (decode,
model load including InsufficientStorage, inference), whatever the
environment does.  The freshness hypothesis is `NamedTemporaryFile`'s
guarantee of a unique new name. -/
theorem remove_background_temp_file_cleanup (env : Env) (req : HttpRequest)
    (st : ServerState) (bytes : List Nat)
    (himg : req.files_image = some bytes)
    (hfresh : temp_name st.next_temp_id ∉ st.temp_files) :
    temp_name st.next_temp_id ∉ ((remove_background env req st).2).disk_files
    ∧ temp_name st.next_temp_id
        ∉ ((remove_background env req st).2).temp_files := by
  have hpres := rb_process_preserves_files env (req.form_model.getD "u2netp")
    { st with next_temp_id := st.next_temp_id + 1,
              disk_files := st.disk_files ++ [temp_name st.next_temp_id],
              temp_files := st.temp_files ++ [temp_name st.next_temp_id] }
  rcases hp : rb_process env (req.form_model.getD "u2netp")
    { st with next_temp_id := st.next_temp_id + 1,
              disk_files := st.disk_files ++ [temp_name st.next_temp_id],
              temp_files := st.temp_files ++ [temp_name st.next_temp_id] }
    with ⟨res, st2⟩
  rw [hp] at hpres
  obtain ⟨hd, ht⟩ := hpres
  simp only [] at hd ht
  have h2 : (remove_background env req st).2
      = finally_cleanup (temp_name st.next_temp_id) st2 := by
    cases res <;> simp [remove_background, himg, hp]
  rw [h2]
  exact finally_cleanup_not_mem (temp_name st.next_temp_id) st2 st.temp_files
    (by rw [hd]; exact List.mem_append_right _ (List.mem_singleton_self _))
    (by rw [ht]) hfresh

/-- Witness for `remove_background_temp_file_cleanup`: a concrete upload in
the all-succeeding environment leaves no trace of its temp file. -/
theorem remove_background_temp_file_cleanup_witness :
    temp_name ServerState.init.next_temp_id
      ∉ ((remove_background envNoErr ⟨some [7, 7], none⟩
            ServerState.init).2).disk_files
    ∧ temp_name ServerState.init.next_temp_id
      ∉ ((remove_background envNoErr ⟨some [7, 7], none⟩
            ServerState.init).2).temp_files :=
  remove_background_temp_file_cleanup envNoErr ⟨some [7, 7], none⟩
    ServerState.init [7, 7] rfl (by simp [ServerState.init])

/-- C3: `find_available_port` probes increasing ports from `start_port`;
whenever it returns `.ok p`, `p` lies in
`[start_port, start_port + max_attempts)`, `p` was bindable at the instant of
the check, and every port of the range below `p` failed to bind; when no port
of the range binds it raises the fatal no-port `RuntimeError` instead of
returning. -/
theorem find_available_port_spec (bindable : Nat → Bool) (s m : Nat) :
    (∀ p, find_available_port bindable s m = .ok p →
      s ≤ p ∧ p < s + m ∧ bindable p = true
        ∧ ∀ q, s ≤ q → q < p → bindable q = false)
    ∧ ((∀ q, s ≤ q → q < s + m → bindable q = false) →
      find_available_port bindable s m
        = .error ("No available ports found in range " ++ toString s
            ++ "-" ++ toString (s + m))) := by
  constructor
  · intro p h
    cases hf : find_from bindable s m with
    | none => simp [find_available_port, hf] at h
    | some q =>
      simp [find_available_port, hf] at h
      subst h
      exact find_from_ok bindable m s q hf
  · intro h
    simp [find_available_port, find_from_none bindable m s h]

/-- Witness for `find_available_port_spec`: with only port 55002 bindable,
the search returns it after 55001 (for instance) failed to bind. -/
theorem find_available_port_spec_witness :
    (fun q => decide (q = 55002)) 55001 = false :=
  ((find_available_port_spec (fun q => decide (q = 55002)) 55000 10).1
      55002 (by rfl)).2.2.2 55001 (by decide) (by decide)

/-- C7: on a termination or interrupt signal the handler leaves the model
cache empty, unlinks every tracked temporary file from disk, empties the
pending-cleanup list, and exits the process with status 0. -/
theorem handle_sigterm_cleanup_spec (st : ServerState) :
    (handle_sigterm st).1.model_cache = []
    ∧ (handle_sigterm st).1.temp_files = []
    ∧ (∀ f, f ∈ st.temp_files → f ∉ (handle_sigterm st).1.disk_files)
    ∧ (handle_sigterm st).2 = 0 := by
  refine ⟨rfl, rfl, ?_, rfl⟩
  intro f hf
  exact foldl_unlink_not_mem st.temp_files st.disk_files f hf

/-- Witness for `handle_sigterm_cleanup_spec`: a tracked temp file of a
concrete pre-shutdown state is gone from disk afterwards. -/
theorem handle_sigterm_cleanup_spec_witness :
    "/tmp/rtbg_0.png" ∉ (handle_sigterm sigtermTestState).1.disk_files :=
  (handle_sigterm_cleanup_spec sigtermTestState).2.2.1 "/tmp/rtbg_0.png"
    (by simp [sigtermTestState])

/-- C8: every exception raised during per-request processing of
`/remove-background` or `/preload-model` — the InsufficientStorage failure of
the disk-space check included — is caught at the handler boundary and becomes
status 500 with body `jsonify({"error": str(e)})`; the handlers are total, the
only statuses `/remove-background` can produce being 200, 400 and 500. -/
theorem handlers_catch_exceptions_500 (env : Env) (req : HttpRequest)
    (st : ServerState) :
    (∀ bytes msg st2, req.files_image = some bytes →
      rb_process env (req.form_model.getD "u2netp")
          { st with next_temp_id := st.next_temp_id + 1,
                    disk_files := st.disk_files ++ [temp_name st.next_temp_id],
                    temp_files := st.temp_files ++ [temp_name st.next_temp_id] }
        = (.error msg, st2) →
      (remove_background env req st).1 = (500, .jsonError msg))
    ∧ (∀ msg st2,
      get_session env.statvfs env.new_session_err
          (req.form_model.getD "u2netp") st = (.error msg, st2) →
      (preload_model env req st).1 = (500, .jsonError msg))
    ∧ (check_disk_space env.statvfs 500 = false →
      (preload_model env req st).1
        = (500, .jsonError "Insufficient disk space for model storage"))
    ∧ ((remove_background env req st).1.1 = 200
        ∨ (remove_background env req st).1.1 = 400
        ∨ (remove_background env req st).1.1 = 500) := by
  refine ⟨?_, ?_, ?_, ?_⟩
  · intro bytes msg st2 himg hp
    simp [remove_background, himg, hp]
  · intro msg st2 hg
    simp [preload_model, hg]
  · intro hc
    simp [preload_model, get_session, hc]
  · cases himg : req.files_image with
    | none => simp [remove_background, himg]
    | some bytes =>
      rcases hp : rb_process env (req.form_model.getD "u2netp")
        { st with next_temp_id := st.next_temp_id + 1,
                  disk_files := st.disk_files ++ [temp_name st.next_temp_id],
                  temp_files := st.temp_files ++ [temp_name st.next_temp_id] }
        with ⟨res, st2⟩
      cases res <;> simp [remove_background, himg, hp]

/-- Witness for `handlers_catch_exceptions_500`: on a full disk,
`/preload-model` answers 500 with the InsufficientStorage message. -/
theorem handlers_catch_exceptions_500_witness :
    (preload_model envNoDisk ⟨none, none⟩ ServerState.init).1
      = (500, .jsonError "Insufficient disk space for model storage") :=
  (handlers_catch_exceptions_500 envNoDisk ⟨none, none⟩
    ServerState.init).2.2.1 (by rfl)

end RemoveThatBG
